import Mathlib

/-!
Shallow embedding of the supervisor core of `src/init/init.c`
(puppetizer-base): the command dispatcher, the signal handler, the halt
procedure and the per-iteration tail of the supervisor loop.  The service
registry, control codec and spawn helpers are external collaborators whose
headers are not part of the source tree; their behaviour is modelled from
the spec where a claim needs it, and each such definition says so in its
doc comment.
-/

namespace Puppetizer

/-- Modelled from the spec: `service_state_t` (from the missing `service.h`)
is "an enumeration including at least `DOWN`, `PENDING_DOWN`, and running
states"; we take the running states to be `UP` and `PENDING_UP`. -/
inductive ServiceState
  | STATE_DOWN
  | STATE_PENDING_DOWN
  | STATE_UP
  | STATE_PENDING_UP
deriving DecidableEq

/-- Modelled from the spec: numeric value of each state of the enumeration
(the concrete values are not in the source tree; any assignment of small
distinct values fits the fixed-width packing described by the spec). -/
def ServiceState.toNat : ServiceState → Nat
  | .STATE_DOWN => 0
  | .STATE_PENDING_DOWN => 1
  | .STATE_UP => 2
  | .STATE_PENDING_UP => 3

/-- Modelled from the spec: partial inverse of `ServiceState.toNat`. -/
def ServiceState.fromCode : Nat → Option ServiceState
  | 0 => some .STATE_DOWN
  | 1 => some .STATE_PENDING_DOWN
  | 2 => some .STATE_UP
  | 3 => some .STATE_PENDING_UP
  | _ => none

/-- Modelled from the spec: the response tags of `control_reponse_t` (from
the missing `control.h`): `{OK, FAILED, ERROR, FAILED_LOOKUP, STATE}`, all
distinct, each fitting in the low bits of the response word. -/
def CMD_RESPONSE_OK : Nat := 0

/-- Modelled from the spec: see `CMD_RESPONSE_OK`. -/
def CMD_RESPONSE_FAILED : Nat := 1

/-- Modelled from the spec: see `CMD_RESPONSE_OK`. -/
def CMD_RESPONSE_ERROR : Nat := 2

/-- Modelled from the spec: see `CMD_RESPONSE_OK`. -/
def CMD_RESPONSE_FAILED_LOOKUP : Nat := 3

/-- Modelled from the spec: see `CMD_RESPONSE_OK`. -/
def CMD_RESPONSE_STATE : Nat := 4

/-- Modelled from the spec: `sizeof(control_reponse_t)` — the response is
"a single byte/word value". -/
def RESPONSE_SIZE : Nat := 1

/-- Command types of `control_command_t`; `CMD_OTHER` stands for any value
of the C enum that is none of `CMD_START`, `CMD_STOP`, `CMD_STATUS`
(the dispatcher's `switch` has no case for it, so `ret` keeps its
initial `CMD_RESPONSE_ERROR` value). -/
inductive CommandType
  | CMD_START
  | CMD_STOP
  | CMD_STATUS
  | CMD_OTHER
deriving DecidableEq

/-- `control_command_t`: a command type plus a fixed-length service name. -/
structure ControlCommand where
  type : CommandType
  name : String
deriving DecidableEq

/-- A registry entry: `struct service` as far as `init.c` touches it
(`name`, the supervised process id, and `state`). -/
structure Service where
  name : String
  pid : Nat
  state : ServiceState
deriving DecidableEq

/-- Modelled from the spec: `service_find_by_name` looks a service up in the
registry by name. -/
def service_find_by_name (reg : List Service) (n : String) : Option Service :=
  reg.find? (fun s => s.name == n)

/-- Modelled from the spec: `service_find_by_pid` looks a service up in the
registry by the pid it is running under. -/
def service_find_by_pid (reg : List Service) (p : Nat) : Option Service :=
  reg.find? (fun s => s.pid == p)

/-- Modelled from the spec: `service_set_down` marks the reaped service
(identified here by its pid) as `DOWN` in the registry. -/
def service_set_down (reg : List Service) (p : Nat) : List Service :=
  reg.map (fun s => if s.pid == p then { s with state := .STATE_DOWN } else s)

/-- Modelled from the spec: `service_count_by_state(st, negate)` counts the
services whose state equals `st`, or, when `negate` is set, differs from
`st` (the loop calls it as `service_count_by_state(STATE_DOWN, TRUE)` to
count the services still outstanding). -/
def service_count_by_state (reg : List Service) (st : ServiceState) (negate : Bool) : Nat :=
  (reg.filter (fun s => if negate then s.state != st else s.state == st)).length

/-- Modelled from the spec: `service_stop_all` asks every service not yet
`DOWN` to stop and returns the count of services that were not `DOWN` when
it was invoked. -/
def service_stop_all (reg : List Service) : Nat × List Service :=
  (service_count_by_state reg .STATE_DOWN true,
   reg.map (fun s => if s.state == ServiceState.STATE_DOWN then s
                     else { s with state := .STATE_PENDING_DOWN }))

/-- Observable outcome of `init_handle_client_command` before the final
`send`: the response word and whether `service_start` / `service_stop`
were invoked on the registry. -/
structure CmdEffects where
  ret : Nat
  startCalled : Bool
  stopCalled : Bool
deriving DecidableEq

/-- Embedding of the body of `init_handle_client_command` (init.c:57-88),
up to but excluding the final `send`.  `ret` is initialised to
`CMD_RESPONSE_ERROR`; an unknown name only logs a warning and leaves it
unchanged; `START`/`STOP` are gated on `is_halting`; `STATUS` packs the
service state into the high bits over the `STATE` tag.  `startOk` and
`stopOk` stand for the boolean results of the external `service_start` and
`service_stop`. -/
def init_handle_client_command_core (is_halting : Bool) (reg : List Service)
    (cmd : ControlCommand) (startOk stopOk : Bool) : CmdEffects :=
  match service_find_by_name reg cmd.name with
  | none =>
      { ret := CMD_RESPONSE_ERROR, startCalled := false, stopCalled := false }
  | some svc =>
      match cmd.type with
      | .CMD_START =>
          if is_halting then
            { ret := CMD_RESPONSE_ERROR, startCalled := false, stopCalled := false }
          else
            { ret := if startOk then CMD_RESPONSE_OK else CMD_RESPONSE_FAILED,
              startCalled := true, stopCalled := false }
      | .CMD_STOP =>
          if is_halting then
            { ret := CMD_RESPONSE_ERROR, startCalled := false, stopCalled := false }
          else
            { ret := if stopOk then CMD_RESPONSE_OK else CMD_RESPONSE_FAILED,
              startCalled := false, stopCalled := true }
      | .CMD_STATUS =>
          { ret := svc.state.toNat <<< 4 ||| CMD_RESPONSE_STATE,
            startCalled := false, stopCalled := false }
      | .CMD_OTHER =>
          { ret := CMD_RESPONSE_ERROR, startCalled := false, stopCalled := false }

/-- Result of a full `init_handle_client_command` call: the dispatcher
effects, the sizes of the writes it issued, and its boolean return value. -/
structure CmdSendResult where
  eff : CmdEffects
  sends : List Nat
  ok : Bool
deriving DecidableEq

/-- Embedding of `init_handle_client_command` (init.c:57-91) including the
final `send`: one write of `sizeof(control_reponse_t)` bytes is always
issued, and the function returns whether the number of bytes actually
transferred (`sent`, an `ssize_t`, possibly `-1`) equals the response
size. -/
def init_handle_client_command (is_halting : Bool) (reg : List Service)
    (cmd : ControlCommand) (startOk stopOk : Bool) (sent : Int) : CmdSendResult :=
  let e := init_handle_client_command_core is_halting reg cmd startOk stopOk
  { eff := e, sends := [RESPONSE_SIZE], ok := sent == (RESPONSE_SIZE : Int) }

/-- Encoding of a STATUS response as written at init.c:83:
`svc->state << 4 | CMD_RESPONSE_STATE`. -/
def encode_state_response (st : ServiceState) : Nat :=
  st.toNat <<< 4 ||| CMD_RESPONSE_STATE

/-- Modelled from the spec: the decoding side of the control codec (not in
the source tree) splits the response word into the tag in the low bits and
the state value in the high bits. -/
def decode_response (w : Nat) : Nat × Nat :=
  (w % 16, w / 16)

/-- Modelled from the spec: the distinct process exit codes named in
`common.h` (not in the source tree); only their distinctness matters. -/
def ERROR_SPAWN_FAILED : Nat := 1

/-- Modelled from the spec: see `ERROR_SPAWN_FAILED`. -/
def ERROR_SOCKET_FAILED : Nat := 2

/-- Modelled from the spec: see `ERROR_SPAWN_FAILED`. -/
def ERROR_EPOLL_FAILED : Nat := 3

/-- Modelled from the spec: see `ERROR_SPAWN_FAILED`. -/
def ERROR_EPOLL_WAIT : Nat := 4

/-- Modelled from the spec: see `ERROR_SPAWN_FAILED`. -/
def ERROR_EPOLL_SIGNAL_MESSAGE : Nat := 5

/-- Modelled from the spec: see `ERROR_SPAWN_FAILED`. -/
def ERROR_EPOLL_SIGNAL : Nat := 6

/-- Modelled from the spec: see `ERROR_SPAWN_FAILED`. -/
def ERROR_BOOT_FAILED : Nat := 7

/-- Modelled from the spec: see `ERROR_SPAWN_FAILED`. -/
def ERROR_THREAD_FAILED : Nat := 8

/-- The four signals the supervisor consumes through its signal descriptor. -/
inductive Signal
  | SIGCHLD
  | SIGTERM
  | SIGINT
  | SIGHUP
deriving DecidableEq

/-- One decoded `signalfd_siginfo` record as `init_handle_signal` uses it:
the signal number, the pid it concerns, and — for `SIGCHLD` — the child's
exit code as computed by the external `spawn_retval` from the wait status. -/
structure SignalInfo where
  signo : Signal
  pid : Nat
  retval : Int
deriving DecidableEq

/-- The mutable globals of init.c that the signal path touches, plus the
registry (owned by the external collaborator but mutated through
`service_set_down`).  `halt_spawns` counts the `pthread_create` calls made
by `init_halt_thread` (the C code keeps only the last handle in
`halt_thread`; `0` means no thread was ever spawned). -/
structure InitState where
  is_halting : Bool
  boot_pid : Nat
  halt_spawns : Nat
  registry : List Service
deriving DecidableEq

/-- Observable outcome of one `init_handle_signal` call: its boolean return
value, the state afterwards, and which actions the call performed.
`haltThreadSpawned` records a `init_halt_thread` call (a `pthread_create`),
`applySpawned` an `init_apply` call, `bootBranch` that the
`boot_pid == ssi_pid` comparison matched, `reapedZombie` the
unknown-pid log-only branch, and `markedDownPid` the pid handed to
`service_set_down`, if any. -/
structure SignalResult where
  ok : Bool
  state : InitState
  haltThreadSpawned : Bool
  applySpawned : Bool
  bootBranch : Bool
  reapedZombie : Bool
  markedDownPid : Option Nat
deriving DecidableEq

/-- Embedding of `init_handle_signal` (init.c:136-193).  The handler itself
never writes `is_halting` (only the halt thread does) and never writes
`boot_pid`; `init_halt_thread` is modelled as incrementing `halt_spawns`
(the thread body `init_halt` runs asynchronously and is embedded
separately).  On `SIGCHLD`: if the pid is the tracked boot pid and the exit
code is non-zero the handler returns `FALSE` at once; otherwise the pid is
looked up in the registry, an unknown pid is only logged, and a known
service is marked `DOWN`, with a halt thread spawned when its pre-exit
state was not `PENDING_DOWN` or the exit code was non-zero. -/
def init_handle_signal (s : InitState) (info : SignalInfo) : SignalResult :=
  match info.signo with
  | .SIGCHLD =>
      let bootMatch := s.boot_pid == info.pid
      if bootMatch && info.retval != 0 then
        { ok := false, state := s, haltThreadSpawned := false, applySpawned := false,
          bootBranch := true, reapedZombie := false, markedDownPid := none }
      else
        match service_find_by_pid s.registry info.pid with
        | none =>
            { ok := true, state := s, haltThreadSpawned := false, applySpawned := false,
              bootBranch := bootMatch, reapedZombie := true, markedDownPid := none }
        | some svc =>
            let svc_state := svc.state
            let unexpected := svc_state != ServiceState.STATE_PENDING_DOWN || info.retval != 0
            { ok := true,
              state := { s with
                registry := service_set_down s.registry info.pid,
                halt_spawns := if unexpected then s.halt_spawns + 1 else s.halt_spawns },
              haltThreadSpawned := unexpected, applySpawned := false,
              bootBranch := bootMatch, reapedZombie := false,
              markedDownPid := some info.pid }
  | .SIGTERM =>
      if s.is_halting then
        { ok := true, state := s, haltThreadSpawned := false, applySpawned := false,
          bootBranch := false, reapedZombie := false, markedDownPid := none }
      else
        { ok := true, state := { s with halt_spawns := s.halt_spawns + 1 },
          haltThreadSpawned := true, applySpawned := false,
          bootBranch := false, reapedZombie := false, markedDownPid := none }
  | .SIGINT =>
      if s.is_halting then
        { ok := true, state := s, haltThreadSpawned := false, applySpawned := false,
          bootBranch := false, reapedZombie := false, markedDownPid := none }
      else
        { ok := true, state := { s with halt_spawns := s.halt_spawns + 1 },
          haltThreadSpawned := true, applySpawned := false,
          bootBranch := false, reapedZombie := false, markedDownPid := none }
  | .SIGHUP =>
      if s.is_halting then
        { ok := true, state := s, haltThreadSpawned := false, applySpawned := false,
          bootBranch := false, reapedZombie := false, markedDownPid := none }
      else
        { ok := true, state := s, haltThreadSpawned := false, applySpawned := true,
          bootBranch := false, reapedZombie := false, markedDownPid := none }

/-- The externally observable steps of `init_halt`, in execution order. -/
inductive HaltEvent
  | setFlag
  | runHaltAction
  | logHaltError (code : Int)
  | stopAll
  | warnOutstanding (n : Nat)
deriving DecidableEq

/-- Embedding of `init_halt` (init.c:104-124), run on the halt thread.
Input: the current `is_halting` flag, the exit code of the external
`spawn2_wait(PUPPETIZER_APPLY, "halt")`, and the registry.  Output: the
flag afterwards, the registry afterwards, and the trace of steps taken.
If `is_halting` is already set the function returns immediately; otherwise
it sets the flag, runs the halt action (logging a non-zero exit code as an
error but continuing), calls `service_stop_all`, and logs a warning with
the returned count when it is positive. -/
def init_halt (is_halting : Bool) (haltActionRet : Int) (reg : List Service) :
    Bool × List Service × List HaltEvent :=
  if is_halting then
    (is_halting, reg, [])
  else
    let tr1 := [HaltEvent.setFlag, HaltEvent.runHaltAction]
    let tr2 := if haltActionRet != 0 then tr1 ++ [HaltEvent.logHaltError haltActionRet] else tr1
    let stopped := service_stop_all reg
    let tr3 := tr2 ++ [HaltEvent.stopAll]
    let tr4 := if 0 < stopped.1 then tr3 ++ [HaltEvent.warnOutstanding stopped.1] else tr3
    (true, stopped.2, tr4)

/-- Outcome of one iteration of the `for (;;)` loop of `init_loop`
(init.c:255-324), restricted to signal events: the state and `exit_code`
after the iteration, whether the outer loop `break`s, and whether the
"No more services running, exitting" line was logged. -/
structure IterResult where
  state : InitState
  exit_code : Nat
  breaks : Bool
  loggedAllDown : Bool
deriving DecidableEq

/-- The inner `for (i = 0; i < changes; i++)` event loop of `init_loop`,
restricted to signal-descriptor events: each record is handed to
`init_handle_signal`; a `FALSE` return sets `exit_code` to
`ERROR_EPOLL_SIGNAL` and `break`s out of this inner loop only, leaving the
remaining events of the cycle unprocessed. -/
def init_process_events (s : InitState) (evs : List SignalInfo) (exit_code : Nat) :
    InitState × Nat :=
  match evs with
  | [] => (s, exit_code)
  | e :: rest =>
      let r := init_handle_signal s e
      if r.ok then init_process_events r.state rest exit_code
      else (r.state, ERROR_EPOLL_SIGNAL)

/-- Embedding of one full iteration of the outer `for (;;)` loop of
`init_loop` (init.c:255-324), restricted to signal events: process the
events reported by this `epoll_wait` cycle, then run the iteration tail

```
if (is_halting) {
    if (service_count_by_state(STATE_DOWN, TRUE) == 0) {
        log_info("No more services running, exitting");
    }
    break;
}
```

whose `break` sits outside the inner count check. -/
def init_loop_iter (s : InitState) (evs : List SignalInfo) (exit_code : Nat) : IterResult :=
  let r := init_process_events s evs exit_code
  if r.1.is_halting then
    { state := r.1, exit_code := r.2, breaks := true,
      loggedAllDown := service_count_by_state r.1.registry .STATE_DOWN true == 0 }
  else
    { state := r.1, exit_code := r.2, breaks := false, loggedAllDown := false }

/-! ### Helper lemmas about the command dispatcher -/

theorem handle_core_unknown (is_halting : Bool) (reg : List Service)
    (cmd : ControlCommand) (startOk stopOk : Bool)
    (h : service_find_by_name reg cmd.name = none) :
    init_handle_client_command_core is_halting reg cmd startOk stopOk =
      { ret := CMD_RESPONSE_ERROR, startCalled := false, stopCalled := false } := by
  unfold init_handle_client_command_core
  rw [h]

theorem handle_core_other (is_halting : Bool) (reg : List Service)
    (cmd : ControlCommand) (startOk stopOk : Bool)
    (h : cmd.type = .CMD_OTHER) :
    init_handle_client_command_core is_halting reg cmd startOk stopOk =
      { ret := CMD_RESPONSE_ERROR, startCalled := false, stopCalled := false } := by
  unfold init_handle_client_command_core
  cases hf : service_find_by_name reg cmd.name
  · rfl
  · rw [h]

theorem handle_core_halting_startstop (reg : List Service) (cmd : ControlCommand)
    (startOk stopOk : Bool) (h : cmd.type = .CMD_START ∨ cmd.type = .CMD_STOP) :
    init_handle_client_command_core true reg cmd startOk stopOk =
      { ret := CMD_RESPONSE_ERROR, startCalled := false, stopCalled := false } := by
  unfold init_handle_client_command_core
  cases hf : service_find_by_name reg cmd.name
  · rfl
  · rcases h with h | h <;> rw [h] <;> rfl

theorem handle_core_status (is_halting : Bool) (reg : List Service)
    (cmd : ControlCommand) (startOk stopOk : Bool) (svc : Service)
    (ht : cmd.type = .CMD_STATUS) (hf : service_find_by_name reg cmd.name = some svc) :
    init_handle_client_command_core is_halting reg cmd startOk stopOk =
      { ret := encode_state_response svc.state, startCalled := false, stopCalled := false } := by
  unfold init_handle_client_command_core
  rw [hf, ht]
  rfl

/-! ### Claims about the command dispatcher -/

/-- Claim C3: while HaltFlag is true, every START or STOP command yields the
ERROR response with neither `service_start` nor `service_stop` called, and a
STATUS command for a known service still yields the STATE response carrying
the service's current registry state. -/
theorem C3_halt_gating (reg : List Service) (cmd : ControlCommand)
    (startOk stopOk : Bool) :
    ((cmd.type = .CMD_START ∨ cmd.type = .CMD_STOP) →
      init_handle_client_command_core true reg cmd startOk stopOk =
        { ret := CMD_RESPONSE_ERROR, startCalled := false, stopCalled := false }) ∧
    (∀ svc, cmd.type = .CMD_STATUS →
      service_find_by_name reg cmd.name = some svc →
      init_handle_client_command_core true reg cmd startOk stopOk =
        { ret := encode_state_response svc.state, startCalled := false,
          stopCalled := false }) :=
  ⟨fun h => handle_core_halting_startstop reg cmd startOk stopOk h,
   fun svc ht hf => handle_core_status true reg cmd startOk stopOk svc ht hf⟩

/-- Witness for C3 at a concrete halting state: a STOP for the known
service "web" is rejected with ERROR and no registry call. -/
theorem C3_halt_gating_witness :
    init_handle_client_command_core true [⟨"web", 5, .STATE_UP⟩]
        ⟨.CMD_STOP, "web"⟩ true true =
      { ret := CMD_RESPONSE_ERROR, startCalled := false, stopCalled := false } :=
  (C3_halt_gating [⟨"web", 5, .STATE_UP⟩] ⟨.CMD_STOP, "web"⟩ true true).1 (Or.inr rfl)

/-- Claim C5 counterexample: a STOP command for the unknown name
"nonexistent" while not halting leaves `ret` at its initial
`CMD_RESPONSE_ERROR` value — `CMD_RESPONSE_FAILED_LOOKUP` is never
assigned anywhere in `init_handle_client_command`. -/
theorem C5_counterexample :
    (init_handle_client_command_core false [⟨"web", 5, .STATE_UP⟩]
        ⟨.CMD_STOP, "nonexistent"⟩ true true).ret = CMD_RESPONSE_ERROR ∧
    CMD_RESPONSE_ERROR ≠ CMD_RESPONSE_FAILED_LOOKUP := by
  decide

/-- Claim C5 (amended): for every command whose service name matches no
registry entry, the response written back is the generic ERROR word (the
lookup failure is logged at warning level only) and no service is started
or stopped. -/
theorem C5_unknown_name (is_halting : Bool) (reg : List Service)
    (cmd : ControlCommand) (startOk stopOk : Bool)
    (h : service_find_by_name reg cmd.name = none) :
    init_handle_client_command_core is_halting reg cmd startOk stopOk =
      { ret := CMD_RESPONSE_ERROR, startCalled := false, stopCalled := false } :=
  handle_core_unknown is_halting reg cmd startOk stopOk h

/-- Witness for C5 (amended): the STOP for "nonexistent" of the
unknown-service scenario. -/
theorem C5_unknown_name_witness :
    init_handle_client_command_core false [⟨"web", 5, .STATE_UP⟩]
        ⟨.CMD_STOP, "nonexistent"⟩ true true =
      { ret := CMD_RESPONSE_ERROR, startCalled := false, stopCalled := false } :=
  C5_unknown_name false [⟨"web", 5, .STATE_UP⟩] ⟨.CMD_STOP, "nonexistent"⟩ true true
    (by decide)

/-- Claim C7: encoding a STATUS response packs the state value in the high
bits over the STATE tag in the low bits of the response word, and decoding
that word yields the STATE tag and the exact state value, for every defined
service state. -/
theorem C7_state_response_roundtrip (st : ServiceState) :
    decode_response (encode_state_response st) = (CMD_RESPONSE_STATE, st.toNat) ∧
    ServiceState.fromCode (decode_response (encode_state_response st)).2 = some st := by
  cases st <;> exact ⟨rfl, rfl⟩

/-- Claim C10: the command handler always issues exactly one write of the
fixed response size; an unrecognised command type, an unknown service name,
and a halt-gated START/STOP all yield the same generic ERROR word; and the
handler reports failure exactly when the write transferred fewer bytes than
the response size. -/
theorem C10_one_response (is_halting : Bool) (reg : List Service)
    (cmd : ControlCommand) (startOk stopOk : Bool) (sent : Int)
    (hsent : sent ≤ (RESPONSE_SIZE : Int)) :
    (init_handle_client_command is_halting reg cmd startOk stopOk sent).sends
        = [RESPONSE_SIZE] ∧
    ((init_handle_client_command is_halting reg cmd startOk stopOk sent).ok = false ↔
      sent < (RESPONSE_SIZE : Int)) ∧
    (cmd.type = .CMD_OTHER →
      (init_handle_client_command is_halting reg cmd startOk stopOk sent).eff.ret
        = CMD_RESPONSE_ERROR) ∧
    (service_find_by_name reg cmd.name = none →
      (init_handle_client_command is_halting reg cmd startOk stopOk sent).eff.ret
        = CMD_RESPONSE_ERROR) ∧
    (is_halting = true → (cmd.type = .CMD_START ∨ cmd.type = .CMD_STOP) →
      (init_handle_client_command is_halting reg cmd startOk stopOk sent).eff.ret
        = CMD_RESPONSE_ERROR) := by
  refine ⟨rfl, ?_, fun h => ?_, fun h => ?_, fun hh h => ?_⟩
  · show ((sent == (RESPONSE_SIZE : Int)) = false ↔ sent < (RESPONSE_SIZE : Int))
    rw [beq_eq_false_iff_ne]
    exact ⟨fun hne => lt_of_le_of_ne hsent hne, fun hlt => ne_of_lt hlt⟩
  · show (init_handle_client_command_core is_halting reg cmd startOk stopOk).ret
        = CMD_RESPONSE_ERROR
    rw [handle_core_other is_halting reg cmd startOk stopOk h]
  · show (init_handle_client_command_core is_halting reg cmd startOk stopOk).ret
        = CMD_RESPONSE_ERROR
    rw [handle_core_unknown is_halting reg cmd startOk stopOk h]
  · show (init_handle_client_command_core is_halting reg cmd startOk stopOk).ret
        = CMD_RESPONSE_ERROR
    subst hh
    rw [handle_core_halting_startstop reg cmd startOk stopOk h]

/-- Witness for C10 at a concrete input: a write that transferred 0 of the
required bytes makes the handler report failure. -/
theorem C10_one_response_witness :
    (init_handle_client_command true [] ⟨.CMD_OTHER, "x"⟩ true true 0).ok = false :=
  ((C10_one_response true [] ⟨.CMD_OTHER, "x"⟩ true true 0 (by decide)).2.1).mpr
    (by decide)

/-! ### Helper lemmas about the signal handler -/

theorem init_handle_signal_globals (s : InitState) (info : SignalInfo) :
    (init_handle_signal s info).state.is_halting = s.is_halting ∧
    (init_handle_signal s info).state.boot_pid = s.boot_pid := by
  obtain ⟨signo, pid, retval⟩ := info
  unfold init_handle_signal
  cases signo <;> dsimp only
  case SIGCHLD =>
    split
    · exact ⟨rfl, rfl⟩
    · cases hfind : service_find_by_pid s.registry pid <;> simp [hfind]
  all_goals split <;> exact ⟨rfl, rfl⟩

theorem find_set_down (reg : List Service) (p : Nat) (svc : Service)
    (h : service_find_by_pid reg p = some svc) :
    service_find_by_pid (service_set_down reg p) p =
      some { svc with state := .STATE_DOWN } := by
  induction reg with
  | nil => simp [service_find_by_pid] at h
  | cons a tl ih =>
      by_cases hp : (a.pid == p) = true
      · have hpp : a.pid = p := by simpa using hp
        have ha : a = svc := by
          simp only [service_find_by_pid, List.find?_cons, hp] at h
          exact Option.some_injective _ h
        subst ha
        simp [service_find_by_pid, service_set_down, List.find?_cons, hp, hpp]
      · have h' : service_find_by_pid tl p = some svc := by
          simp only [service_find_by_pid, List.find?_cons, hp] at h
          simpa using h
        have htl := ih h'
        simp only [service_find_by_pid, service_set_down, List.map_cons,
          List.find?_cons, hp, if_neg] at htl ⊢
        simp only [Bool.not_eq_true] at hp
        simp [hp]
        simpa [service_find_by_pid, service_set_down] using htl

/-! ### Claims about the signal handler, halt procedure and loop -/

/-- Claim C1 (code bug): with halting begun and one service still UP (so one
service outstanding), an iteration with no pending events still breaks the
loop — the `break` at init.c:322 sits outside the `count == 0` check — and
the "No more services running" completion line is not logged. -/
theorem C1_loop_breaks_with_outstanding :
    (init_loop_iter ⟨true, 1, 1, [⟨"web", 5, .STATE_UP⟩]⟩ [] 0).breaks = true ∧
    service_count_by_state [⟨"web", 5, ServiceState.STATE_UP⟩] .STATE_DOWN true = 1 ∧
    (init_loop_iter ⟨true, 1, 1, [⟨"web", 5, .STATE_UP⟩]⟩ [] 0).loggedAllDown = false := by
  decide

/-- Claim C2 counterexample: with halting already begun (flag set, one halt
thread spawned), a registered service in state UP dying with exit code 0 is
an unexpected death and `init_handle_signal` calls `init_halt_thread`
again: a second coordinator thread is spawned. -/
theorem C2_counterexample :
    (init_handle_signal ⟨true, 1, 1, [⟨"web", 5, .STATE_UP⟩]⟩
        ⟨.SIGCHLD, 5, 0⟩).haltThreadSpawned = true ∧
    (init_handle_signal ⟨true, 1, 1, [⟨"web", 5, .STATE_UP⟩]⟩
        ⟨.SIGCHLD, 5, 0⟩).state.halt_spawns = 2 := by
  decide

/-- Claim C2 (amended): after the first halt trigger HaltFlag stays true
under every signal event; a repeated SIGTERM/SIGINT spawns no further halt
thread; and a halt-thread body entered while HaltFlag is already set
returns immediately — no steps, no registry change.  (An unexpected service
death while halting does, however, spawn an additional such no-op thread.) -/
theorem C2_halt_idempotent (s : InitState) (info : SignalInfo)
    (ret : Int) (reg : List Service) (h : s.is_halting = true) :
    (init_handle_signal s info).state.is_halting = true ∧
    ((info.signo = .SIGTERM ∨ info.signo = .SIGINT) →
      (init_handle_signal s info).haltThreadSpawned = false ∧
      (init_handle_signal s info).state.halt_spawns = s.halt_spawns) ∧
    init_halt true ret reg = (true, reg, []) := by
  refine ⟨(init_handle_signal_globals s info).1.trans h, fun hsig => ?_, rfl⟩
  obtain ⟨signo, pid, retval⟩ := info
  rcases hsig with hsig | hsig <;> subst hsig <;>
    simp [init_handle_signal, h]

/-- Witness for C2 (amended) at a concrete halting state and a repeated
SIGTERM: no further halt thread is spawned. -/
theorem C2_halt_idempotent_witness :
    (init_handle_signal ⟨true, 1, 1, []⟩ ⟨.SIGTERM, 1, 0⟩).haltThreadSpawned = false :=
  ((C2_halt_idempotent ⟨true, 1, 1, []⟩ ⟨.SIGTERM, 1, 0⟩ 0 [] rfl).2.1
    (Or.inl rfl)).1

/-- Claim C4: a SIGCHLD for a pid registered to a service (and distinct from
the tracked boot pid) marks exactly that service DOWN, and spawns a halt
thread if and only if the service's pre-exit state was not PENDING_DOWN or
its exit code was non-zero — with exactly one spawn in that case and none
otherwise. -/
theorem C4_reap_correctness (s : InitState) (info : SignalInfo) (svc : Service)
    (hsig : info.signo = .SIGCHLD) (hpid : info.pid ≠ s.boot_pid)
    (hfind : service_find_by_pid s.registry info.pid = some svc) :
    (init_handle_signal s info).ok = true ∧
    (init_handle_signal s info).markedDownPid = some info.pid ∧
    service_find_by_pid (init_handle_signal s info).state.registry info.pid =
      some { svc with state := .STATE_DOWN } ∧
    ((init_handle_signal s info).haltThreadSpawned = true ↔
      (svc.state ≠ ServiceState.STATE_PENDING_DOWN ∨ info.retval ≠ 0)) ∧
    (init_handle_signal s info).state.halt_spawns =
      (if svc.state ≠ ServiceState.STATE_PENDING_DOWN ∨ info.retval ≠ 0
        then s.halt_spawns + 1 else s.halt_spawns) := by
  obtain ⟨signo, pid, retval⟩ := info
  dsimp only at hsig hpid hfind
  subst hsig
  have hb : (s.boot_pid == pid) = false := by
    simp only [beq_eq_false_iff_ne, ne_eq]
    exact fun he => hpid he.symm
  refine ⟨?_, ?_, ?_, ?_, ?_⟩
  · simp [init_handle_signal, hb, hfind]
  · simp [init_handle_signal, hb, hfind]
  · have hdown := find_set_down s.registry pid svc hfind
    simp only [init_handle_signal, hb, Bool.false_and, Bool.false_eq_true, if_false,
      hfind]
    exact hdown
  · simp [init_handle_signal, hb, hfind, Bool.or_eq_true, bne_iff_ne]
  · by_cases hc : svc.state ≠ ServiceState.STATE_PENDING_DOWN ∨ retval ≠ 0
    · have hbool : (svc.state != ServiceState.STATE_PENDING_DOWN || retval != 0) = true := by
        rcases hc with hc | hc <;> simp [hc]
      simp [init_handle_signal, hb, hfind, hbool, hc]
    · have hc2 := hc
      push_neg at hc2
      have hbool : (svc.state != ServiceState.STATE_PENDING_DOWN || retval != 0) = false := by
        simp [hc2.1, hc2.2]
      simp [init_handle_signal, hb, hfind, hbool, hc]

/-- Witness for C4 at a concrete input: the reap-correctness scenario of a
service in PENDING_DOWN exiting with code 0 — the registry shows it DOWN
afterwards. -/
theorem C4_reap_correctness_witness :
    service_find_by_pid
      (init_handle_signal ⟨false, 1, 0, [⟨"web", 5, .STATE_PENDING_DOWN⟩]⟩
        ⟨.SIGCHLD, 5, 0⟩).state.registry 5 =
      some ⟨"web", 5, .STATE_DOWN⟩ :=
  (C4_reap_correctness ⟨false, 1, 0, [⟨"web", 5, .STATE_PENDING_DOWN⟩]⟩
    ⟨.SIGCHLD, 5, 0⟩ ⟨"web", 5, .STATE_PENDING_DOWN⟩ rfl (by decide) (by decide)).2.2.1

/-- Claim C6 (code bug): when the tracked bootstrap pid exits with code 2,
`init_handle_signal` returns FALSE, but that only breaks the inner event
loop: the iteration records `ERROR_EPOLL_SIGNAL` (not the boot-failure
code) as the exit code and does not break the outer loop, which keeps
polling; halting is never started and the state is unchanged. -/
theorem C6_boot_failure_does_not_stop_loop :
    init_loop_iter ⟨false, 7, 0, []⟩ [⟨.SIGCHLD, 7, 2⟩] 0 =
      { state := ⟨false, 7, 0, []⟩, exit_code := ERROR_EPOLL_SIGNAL,
        breaks := false, loggedAllDown := false } ∧
    ERROR_EPOLL_SIGNAL ≠ ERROR_BOOT_FAILED := by
  decide

/-- Claim C8 counterexample: with the bootstrap pid 7 tracked and an empty
registry, the boot exit (code 0) is handled; a later CHILD_EXITED carrying
the same pid value with exit code 2 again takes the bootstrap branch and
fails the handler, instead of being matched against the registry as a
log-only zombie reap. -/
theorem C8_counterexample :
    (init_handle_signal ⟨false, 7, 0, []⟩ ⟨.SIGCHLD, 7, 0⟩).ok = true ∧
    (init_handle_signal ⟨false, 7, 0, []⟩ ⟨.SIGCHLD, 7, 0⟩).bootBranch = true ∧
    (init_handle_signal (init_handle_signal ⟨false, 7, 0, []⟩
        ⟨.SIGCHLD, 7, 0⟩).state ⟨.SIGCHLD, 7, 2⟩).bootBranch = true ∧
    (init_handle_signal (init_handle_signal ⟨false, 7, 0, []⟩
        ⟨.SIGCHLD, 7, 0⟩).state ⟨.SIGCHLD, 7, 2⟩).ok = false ∧
    (init_handle_signal (init_handle_signal ⟨false, 7, 0, []⟩
        ⟨.SIGCHLD, 7, 0⟩).state ⟨.SIGCHLD, 7, 2⟩).reapedZombie = false := by
  decide

/-- Claim C8 (amended): `boot_pid` is never cleared — no signal event
changes it — so every CHILD_EXITED carrying that pid value takes the
bootstrap branch, and with a non-zero exit code it fails the handler
instead of being matched against the registry. -/
theorem C8_boot_pid_never_cleared (s : InitState) (info : SignalInfo) :
    (init_handle_signal s info).state.boot_pid = s.boot_pid ∧
    (info.signo = .SIGCHLD → info.pid = s.boot_pid →
      (init_handle_signal s info).bootBranch = true ∧
      (info.retval ≠ 0 → (init_handle_signal s info).ok = false)) := by
  refine ⟨(init_handle_signal_globals s info).2, fun hsig hpid => ?_⟩
  obtain ⟨signo, pid, retval⟩ := info
  dsimp only at hsig hpid
  subst hsig
  subst hpid
  constructor
  · by_cases hr : (retval != 0) = true
    · simp [init_handle_signal, hr]
    · simp only [Bool.not_eq_true] at hr
      cases hfind : service_find_by_pid s.registry s.boot_pid <;>
        simp [init_handle_signal, hr, hfind]
  · intro hr
    have hr' : (retval != 0) = true := by simpa [bne_iff_ne] using hr
    simp [init_handle_signal, hr']

/-- Witness for C8 (amended) at a concrete input: a second exit event with
the boot pid value and a non-zero code fails the handler. -/
theorem C8_boot_pid_never_cleared_witness :
    (init_handle_signal ⟨false, 7, 0, []⟩ ⟨.SIGCHLD, 7, 2⟩).ok = false :=
  ((C8_boot_pid_never_cleared ⟨false, 7, 0, []⟩ ⟨.SIGCHLD, 7, 2⟩).2 rfl rfl).2
    (by decide)

/-- Claim C9: when the halt procedure actually runs (HaltFlag not yet set)
it sets the flag, runs the halt action, and — even when that action
returned non-zero, which is only logged — still invokes stop-all on the
registry afterwards; the error log precedes stop-all and the warning with
the count of services not yet DOWN (emitted when that count is positive)
follows it. -/
theorem C9_halt_steps (ret : Int) (reg : List Service) :
    (init_halt false ret reg).1 = true ∧
    (init_halt false ret reg).2.1 = (service_stop_all reg).2 ∧
    ∃ pre post,
      (init_halt false ret reg).2.2 = pre ++ [HaltEvent.stopAll] ++ post ∧
      pre.take 2 = [HaltEvent.setFlag, HaltEvent.runHaltAction] ∧
      (ret ≠ 0 →
        pre = [HaltEvent.setFlag, HaltEvent.runHaltAction, HaltEvent.logHaltError ret]) ∧
      (ret = 0 → pre = [HaltEvent.setFlag, HaltEvent.runHaltAction]) ∧
      (0 < (service_stop_all reg).1 →
        post = [HaltEvent.warnOutstanding (service_stop_all reg).1]) ∧
      ((service_stop_all reg).1 = 0 → post = []) := by
  refine ⟨rfl, ?_, ?_⟩
  · by_cases hr : (ret != 0) = true <;> by_cases hc : 0 < (service_stop_all reg).1 <;>
      simp [init_halt, hr, hc]
  · by_cases hr : ret = 0 <;> by_cases hc : 0 < (service_stop_all reg).1
    · exact ⟨[HaltEvent.setFlag, HaltEvent.runHaltAction],
        [HaltEvent.warnOutstanding (service_stop_all reg).1],
        by simp [init_halt, hr, hc], rfl, fun hne => absurd hr hne, fun _ => rfl,
        fun _ => rfl, fun hz => absurd hz (by omega)⟩
    · exact ⟨[HaltEvent.setFlag, HaltEvent.runHaltAction], [],
        by simp [init_halt, hr, hc], rfl, fun hne => absurd hr hne, fun _ => rfl,
        fun hpos => absurd hpos hc, fun _ => rfl⟩
    · exact ⟨[HaltEvent.setFlag, HaltEvent.runHaltAction, HaltEvent.logHaltError ret],
        [HaltEvent.warnOutstanding (service_stop_all reg).1],
        by simp [init_halt, hr, hc], rfl, fun _ => rfl, fun he => absurd he hr,
        fun _ => rfl, fun hz => absurd hz (by omega)⟩
    · exact ⟨[HaltEvent.setFlag, HaltEvent.runHaltAction, HaltEvent.logHaltError ret], [],
        by simp [init_halt, hr, hc], rfl, fun _ => rfl, fun he => absurd he hr,
        fun hpos => absurd hpos hc, fun _ => rfl⟩

/-- Witness for C9 at a concrete input: one UP service, halt action failing
with exit code 3 — the flag is still set and the registry is still handed
to stop-all. -/
theorem C9_halt_steps_witness :
    (init_halt false 3 [⟨"web", 5, .STATE_UP⟩]).1 = true ∧
    (init_halt false 3 [⟨"web", 5, .STATE_UP⟩]).2.1 =
      (service_stop_all [⟨"web", 5, .STATE_UP⟩]).2 :=
  ⟨(C9_halt_steps 3 [⟨"web", 5, .STATE_UP⟩]).1,
   (C9_halt_steps 3 [⟨"web", 5, .STATE_UP⟩]).2.1⟩

end Puppetizer
